import Mathlib

set_option maxHeartbeats 1000000
set_option maxRecDepth 100000

/- Shallow embedding of the macaw OpenSRS client core: request signing
   (src/opensrs/auth.rs), the XML codec (src/opensrs/xml.rs) and the
   paginated query engine (src/opensrs/domain.rs).  Machine integers
   (u32 page counters, the u8 remainder) are modelled as Nat with the
   parse bounds made explicit; strings are modelled as Lean strings
   with the relevant Rust std string operations re-implemented below. -/

/-! ### String helpers modelling the Rust std behaviour used by the code -/

/-- Whitespace test for `str::trim` (the protocol values are ASCII). -/
def isWsChar (c : Char) : Bool := c = ' ' ∨ c = '\t' ∨ c = '\n' ∨ c = '\r'

/-- Model of Rust `str::trim`: drop whitespace from both ends. -/
def trimStr (s : String) : String :=
  ⟨((s.data.dropWhile isWsChar).reverse.dropWhile isWsChar).reverse⟩

/-- ASCII lowercasing of one character (`str::to_lowercase` restricted to
the ASCII range relevant for the "true"/"1" comparison). -/
def asciiLowerChar (c : Char) : Char :=
  if 'A' ≤ c ∧ c ≤ 'Z' then Char.ofNat (c.toNat + 32) else c

/-- ASCII lowercasing of a string. -/
def asciiLower (s : String) : String := ⟨s.data.map asciiLowerChar⟩

/-- Decimal digit test. -/
def isDigitChar (c : Char) : Bool := '0' ≤ c ∧ c ≤ '9'

/-- Numeric value of a decimal digit character. -/
def digitVal (c : Char) : Nat := c.toNat - 48

/-- Value of a digit string read left to right. -/
def digitsVal (cs : List Char) : Nat := cs.foldl (fun a c => a * 10 + digitVal c) 0

/-- Rust's unsigned `from_str` allows one optional leading `+`. -/
def stripPlus (cs : List Char) : List Char :=
  match cs with
  | '+' :: rest => rest
  | cs => cs

/-- Parse a nonempty all-digit character list, else fail. -/
def parseDigits (cs : List Char) : Option Nat :=
  if cs ≠ [] ∧ cs.all isDigitChar then some (digitsVal cs) else none

/-- Model of Rust `str::parse::<uN>()`: optional `+`, then decimal digits,
failing on empty/non-digit input and on values above the type maximum. -/
def rustParseUnsigned (maxVal : Nat) (s : String) : Option Nat :=
  match parseDigits (stripPlus s.data) with
  | some n => if n ≤ maxVal then some n else none
  | none => none

/-- Largest u32 value. -/
def u32Max : Nat := 4294967295

/-- Largest u8 value. -/
def u8Max : Nat := 255

/-- Decimal digit character for `n % 10`. -/
def natDigitChar (n : Nat) : Char := Char.ofNat (48 + n % 10)

/-- Decimal digit characters of a Nat, most significant first
(model of the `Display` implementation for Rust unsigned integers). -/
def natDigitsAux (n : Nat) : List Char :=
  if _h : n < 10 then [natDigitChar n]
  else natDigitsAux (n / 10) ++ [natDigitChar n]
termination_by n
decreasing_by exact Nat.div_lt_self (by omega) (by omega)

/-- Decimal rendering of a Nat (Rust `u32::to_string`). -/
def natDecimal (n : Nat) : String := ⟨natDigitsAux n⟩

/-! ### Data model (src/opensrs/types.rs) -/

/-- Attributes for a get_domains_by_expiredate request. -/
structure GetDomainsByExpireDateAttrs where
  exp_from : String
  exp_to : String
  limit : Option Nat
  page : Option Nat
deriving DecidableEq

/-- Request to get domains by expiration date. -/
structure GetDomainsByExpireDateRequest where
  protocol : String
  object : String
  action : String
  attributes : GetDomainsByExpireDateAttrs
deriving DecidableEq

/-- Information about an expiring domain. -/
structure ExpiringDomain where
  name : String
  expiredate : String
  f_auto_renew : String
  f_let_expire : String
deriving DecidableEq

/-- Response attributes for get_domains_by_expiredate (`page`/`total`
are u32, `remainder` is u8; modelled as Nat). -/
structure GetDomainsByExpireDateResponseAttrs where
  page : Nat
  total : Nat
  remainder : Nat
  exp_domains : List ExpiringDomain
deriving DecidableEq

/-- Response from get_domains_by_expiredate. -/
structure GetDomainsByExpireDateResponse where
  is_success : Bool
  response_code : String
  response_text : String
  attributes : GetDomainsByExpireDateResponseAttrs
deriving DecidableEq

/-- Errors from src/opensrs/error.rs (payloads flattened to strings). -/
inductive OpenSrsError where
  | HttpError (msg : String)
  | XmlSerialize (msg : String)
  | XmlDeserialize (msg : String)
  | ApiError (code : String) (message : String)
  | AuthError (msg : String)
  | ConfigError (msg : String)
  | DateFormatError (msg : String)
deriving DecidableEq

/-! ### Signer (src/opensrs/auth.rs) -/

/-- One byte rendered as two lowercase hex characters (`hex::encode`). -/
def hexDigitChar (n : Nat) : Char :=
  if n < 10 then Char.ofNat (48 + n) else Char.ofNat (87 + n)

/-- Hex rendering of a byte. -/
def byteToHex (b : Nat) : List Char := [hexDigitChar (b / 16), hexDigitChar (b % 16)]

/-- Lowercase hex rendering of a byte sequence (`hex::encode`). -/
def hexEncode (bs : List Nat) : String := ⟨(bs.map byteToHex).flatten⟩

/-- UTF-8 bytes of an ASCII string (hex digests are pure ASCII, so the
bytes coincide with the code points). -/
def strUtf8Ascii (s : String) : List Nat := s.data.map Char.toNat

/-- Embedding of `generate_signature` (src/opensrs/auth.rs):
`md5(md5(xml + api_key) + api_key)`, hex-encoded at each stage.  The MD5
digest function itself lives in the external `md5` crate and is taken as
a parameter producing the 16-byte digest; the string inputs are modelled
as UTF-8 byte sequences. -/
def generate_signature (md5 : List Nat → List Nat) (xml_content api_key : List Nat) : String :=
  let first_hash := md5 (xml_content ++ api_key)
  let first_hex := hexEncode first_hash
  hexEncode (md5 (strUtf8Ascii first_hex ++ api_key))

/-! ### Codec — serialize (src/opensrs/xml.rs, serialize_request) -/

/-- Fixed envelope text up to and including the opening protocol item. -/
def SER1 : String := "<?xml version='1.0' encoding='UTF-8' standalone='no' ?>\n<!DOCTYPE OPS_envelope SYSTEM 'ops.dtd'>\n<OPS_envelope>\n  <header>\n    <version>0.9</version>\n  </header>\n  <body>\n    <data_block>\n      <dt_assoc>\n        <item key=\"protocol\">"

/-- Template between the protocol value and the object value. -/
def SER2 : String := "</item>\n        <item key=\"object\">"

/-- Template between the object value and the action value. -/
def SER3 : String := "</item>\n        <item key=\"action\">"

/-- Template between the action value and the exp_from value. -/
def SER4 : String := "</item>\n        <item key=\"attributes\">\n          <dt_assoc>\n            <item key=\"exp_from\">"

/-- Template between the exp_from value and the exp_to value. -/
def SER5 : String := "</item>\n            <item key=\"exp_to\">"

/-- Opening of the optional limit item. -/
def SERLIMIT : String := "\n            <item key=\"limit\">"

/-- Opening of the optional page item. -/
def SERPAGE : String := "\n            <item key=\"page\">"

/-- Closing envelope text. -/
def SEREND : String := "\n          </dt_assoc>\n        </item>\n      </dt_assoc>\n    </data_block>\n  </body>\n</OPS_envelope>\n"

/-- Embedding of `serialize_request` (src/opensrs/xml.rs): the exact
sequence of `push_str` calls, with the optional limit/page items. -/
def serialize_request (request : GetDomainsByExpireDateRequest) : Except OpenSrsError String :=
  Except.ok
    (SER1 ++ request.protocol ++ SER2 ++ request.object ++ SER3 ++ request.action ++
      SER4 ++ request.attributes.exp_from ++ SER5 ++ request.attributes.exp_to ++ "</item>" ++
      (match request.attributes.limit with
       | some limit => SERLIMIT ++ natDecimal limit ++ "</item>"
       | none => "") ++
      (match request.attributes.page with
       | some page => SERPAGE ++ natDecimal page ++ "</item>"
       | none => "") ++
      SEREND)

/-! ### Claim C9 -/

/-- C9: serialize_request is total and never errors — for every request
value (every combination of field strings and every Some/None setting of
limit and page) it returns Ok, so the serialization-failure error path of
the query engine is unreachable. -/
theorem C9_serialize_total (request : GetDomainsByExpireDateRequest) :
    ∃ s, serialize_request request = Except.ok s :=
  ⟨_, rfl⟩

/-! ### Claim C5 -/

theorem hexEncode_length (bs : List Nat) : (hexEncode bs).length = 2 * bs.length := by
  show ((bs.map byteToHex).flatten).length = 2 * bs.length
  induction bs with
  | nil => rfl
  | cons b rest ih =>
      simp only [List.map_cons, List.flatten_cons, List.length_append, ih, byteToHex]
      simp
      omega

theorem hexDigitChar_mem : ∀ n, n < 16 → hexDigitChar n ∈ "0123456789abcdef".data := by
  decide

theorem hexEncode_chars (bs : List Nat) (hb : ∀ b ∈ bs, b < 256) :
    ∀ c ∈ (hexEncode bs).data, c ∈ "0123456789abcdef".data := by
  induction bs with
  | nil => intro c hc; simp [hexEncode] at hc
  | cons b rest ih =>
      intro c hc
      have hc' : c ∈ byteToHex b ++ (rest.map byteToHex).flatten := hc
      rcases List.mem_append.mp hc' with h | h
      · have hb' : b < 256 := hb b (by simp)
        simp only [byteToHex, List.mem_cons, List.not_mem_nil, or_false] at h
        rcases h with h | h
        · exact h ▸ hexDigitChar_mem _ (Nat.div_lt_of_lt_mul (by omega))
        · exact h ▸ hexDigitChar_mem _ (Nat.mod_lt _ (by omega))
      · exact ih (fun x hx => hb x (by simp [hx])) c h

/-- C5: for every body and secret, generate_signature equals the
lowercase hex rendering of `MD5(hex(MD5(body ++ secret)) ++ secret)`; it
is a 32-character string over the lowercase hex alphabet, and it is
deterministic.  The MD5 digest function is abstract, constrained to
produce 16 bytes. -/
theorem C5_signature (md5 : List Nat → List Nat) (body secret : List Nat)
    (hlen : ∀ bs, (md5 bs).length = 16)
    (hbyte : ∀ bs, ∀ b ∈ md5 bs, b < 256) :
    generate_signature md5 body secret
        = hexEncode (md5 (strUtf8Ascii (hexEncode (md5 (body ++ secret))) ++ secret))
      ∧ (generate_signature md5 body secret).length = 32
      ∧ (∀ c ∈ (generate_signature md5 body secret).data, c ∈ "0123456789abcdef".data)
      ∧ generate_signature md5 body secret = generate_signature md5 body secret := by
  refine ⟨rfl, ?_, ?_, rfl⟩
  · show (hexEncode (md5 _)).length = 32
    rw [hexEncode_length, hlen]
  · show ∀ c ∈ (hexEncode (md5 _)).data, _
    exact hexEncode_chars _ (hbyte _)

/-- A stand-in digest function used to instantiate the abstract MD5. -/
def md5Stub : List Nat → List Nat := fun _ => List.replicate 16 0

theorem C5_signature_witness :
    generate_signature md5Stub [97] [98]
        = hexEncode (md5Stub (strUtf8Ascii (hexEncode (md5Stub ([97] ++ [98]))) ++ [98]))
      ∧ (generate_signature md5Stub [97] [98]).length = 32
      ∧ (∀ c ∈ (generate_signature md5Stub [97] [98]).data, c ∈ "0123456789abcdef".data)
      ∧ generate_signature md5Stub [97] [98] = generate_signature md5Stub [97] [98] :=
  C5_signature md5Stub [97] [98] (fun _ => by simp [md5Stub])
    (fun _ b hb => by
      have := List.eq_of_mem_replicate (show b ∈ List.replicate 16 0 from hb)
      omega)

/-! ### Codec — deserialize (src/opensrs/xml.rs, deserialize_response)

The quick-xml reader is an external dependency; its output is modelled
as the sequence of events the state machine consumes: start tags (with
the value of a `key` attribute when present), unescaped text nodes, end
tags, a reader error, and the events the code ignores (Empty, Comment,
CData, declarations, ...).  End of the list models `Event::Eof`. -/

/-- One event produced by the XML reader. -/
inductive XmlEvent where
  | start (name : String) (key : Option String)
  | text (s : String)
  | endTag (name : String)
  | errEvent (msg : String)
  | other
deriving DecidableEq

/-- The mutable locals of `deserialize_response`. -/
structure DeserState where
  is_success : Bool
  response_code : String
  response_text : String
  page : Nat
  total : Nat
  remainder : Nat
  exp_domains : List ExpiringDomain
  current_key : String
  in_data_block : Bool
  in_attributes : Bool
  in_exp_domains : Bool
  current_domain : Option ExpiringDomain
deriving DecidableEq

/-- Initial values of the locals of `deserialize_response`. -/
def deserInit : DeserState :=
  { is_success := false, response_code := "", response_text := "",
    page := 0, total := 0, remainder := 0, exp_domains := [],
    current_key := "", in_data_block := false, in_attributes := false,
    in_exp_domains := false, current_domain := none }

/-- Dispatch of a trimmed, nonempty text node on the most recent `key`
attribute (the match arms of the `Event::Text` branch, in source order
and with the source guards). -/
def deserTextKeyed (st : DeserState) (text : String) : DeserState :=
  if st.current_key = "is_success" then
      { st with is_success := (text == "1" || asciiLower text == "true") }
    else if st.current_key = "response_code" then { st with response_code := text }
    else if st.current_key = "response_text" then { st with response_text := text }
    else if st.current_key = "page" then { st with page := (rustParseUnsigned u32Max text).getD 0 }
    else if st.current_key = "total" then { st with total := (rustParseUnsigned u32Max text).getD 0 }
    else if st.current_key = "remainder" then { st with remainder := (rustParseUnsigned u8Max text).getD 0 }
    else if st.current_key = "name" ∧ st.in_exp_domains = true then
      st.current_domain.elim
        { st with current_domain := some (ExpiringDomain.mk text "" "" "") }
        (fun d => { st with current_domain := some { d with name := text } })
    else if st.current_key = "expiredate" ∧ st.in_exp_domains = true then
      st.current_domain.elim st
        (fun d => { st with current_domain := some { d with expiredate := text } })
    else if st.current_key = "f_auto_renew" ∧ st.in_exp_domains = true then
      st.current_domain.elim st
        (fun d => { st with current_domain := some { d with f_auto_renew := text } })
    else if st.current_key = "f_let_expire" ∧ st.in_exp_domains = true then
      st.current_domain.elim st
        (fun d => { st with exp_domains := st.exp_domains ++ [{ d with f_let_expire := text }],
                            current_domain := none })
    else if st.current_key = "attributes" then { st with in_attributes := true }
    else if st.current_key = "exp_domains" then { st with in_exp_domains := true }
    else st

/-- The `Event::Text` arm of the state machine: skip text outside the
data block, trim, skip empty text, then dispatch on the key. -/
def deserText (st : DeserState) (t : String) : DeserState :=
  if st.in_data_block = false then st
  else if trimStr t = "" then st
  else deserTextKeyed st (trimStr t)

/-- One iteration of the `Event` match (errors excepted, handled by the
loop): start tags set the data-block flag or record the `key` attribute
of an `item`, end tags clear the data-block flag, other events are
ignored. -/
def deserStep (st : DeserState) (e : XmlEvent) : DeserState :=
  match e with
  | .start n key =>
      if n = "data_block" then { st with in_data_block := true }
      else if n = "item" then
        match key with
        | some k => { st with current_key := k }
        | none => st
      else st
  | .text t => deserText st t
  | .endTag n => if n = "data_block" then { st with in_data_block := false } else st
  | .errEvent _ => st
  | .other => st

/-- The read-event loop: a reader error aborts with the formatted
message, end of input returns the final state. -/
def deserLoop : DeserState → List XmlEvent → Except String DeserState
  | st, [] => Except.ok st
  | _, .errEvent m :: _ => Except.error ("XML parse error: " ++ m)
  | st, e :: rest => deserLoop (deserStep st e) rest

/-- Embedding of `deserialize_response` (src/opensrs/xml.rs): run the
state machine over the event stream and package the locals into the
response on success. -/
def deserialize_response (es : List XmlEvent) :
    Except OpenSrsError GetDomainsByExpireDateResponse :=
  match deserLoop deserInit es with
  | Except.error m => Except.error (OpenSrsError.XmlDeserialize m)
  | Except.ok st =>
      Except.ok
        { is_success := st.is_success,
          response_code := st.response_code,
          response_text := st.response_text,
          attributes :=
            { page := st.page, total := st.total, remainder := st.remainder,
              exp_domains := st.exp_domains } }

/-! ### Generic facts about the deserializer loop -/

theorem deserLoop_eq_ok (es : List XmlEvent) :
    ∀ st, (∀ m, XmlEvent.errEvent m ∉ es) →
      deserLoop st es = Except.ok (es.foldl deserStep st) := by
  induction es with
  | nil => intro st _; rfl
  | cons e rest ih =>
      intro st hne
      cases e with
      | errEvent m => exact absurd (by simp) (hne m)
      | start n k =>
          simp only [deserLoop, List.foldl_cons]
          exact ih _ (fun m hm => hne m (by simp [hm]))
      | text t =>
          simp only [deserLoop, List.foldl_cons]
          exact ih _ (fun m hm => hne m (by simp [hm]))
      | endTag n =>
          simp only [deserLoop, List.foldl_cons]
          exact ih _ (fun m hm => hne m (by simp [hm]))
      | other =>
          simp only [deserLoop, List.foldl_cons]
          exact ih _ (fun m hm => hne m (by simp [hm]))

theorem deserLoop_eq_error (es : List XmlEvent) :
    ∀ st m, XmlEvent.errEvent m ∈ es →
      ∃ m', deserLoop st es = Except.error m' := by
  induction es with
  | nil => intro st m hm; cases hm
  | cons e rest ih =>
      intro st m hm
      cases e with
      | errEvent m0 => exact ⟨"XML parse error: " ++ m0, rfl⟩
      | start n k =>
          rcases List.mem_cons.mp hm with h | h
          · cases h
          · exact ih _ m h
      | text t =>
          rcases List.mem_cons.mp hm with h | h
          · cases h
          · exact ih _ m h
      | endTag n =>
          rcases List.mem_cons.mp hm with h | h
          · cases h
          · exact ih _ m h
      | other =>
          rcases List.mem_cons.mp hm with h | h
          · cases h
          · exact ih _ m h

/-! ### Claim C4 -/

/-- C4: on every input whose event stream contains a reader error (the
reader's signal that the markup is not well-formed), deserialize_response
fails with the XmlDeserialize protocol error and returns no partially
populated response; on every well-formed stream — whatever unknown or
extra elements it contains — it returns Ok. -/
theorem C4_malformed (es : List XmlEvent) :
    ((∃ m, XmlEvent.errEvent m ∈ es) →
        ∃ m', deserialize_response es = Except.error (OpenSrsError.XmlDeserialize m'))
      ∧ ((∀ m, XmlEvent.errEvent m ∉ es) →
        ∃ r, deserialize_response es = Except.ok r) := by
  constructor
  · rintro ⟨m, hm⟩
    obtain ⟨m', hm'⟩ := deserLoop_eq_error es deserInit m hm
    exact ⟨m', by simp [deserialize_response, hm']⟩
  · intro hne
    unfold deserialize_response
    rw [deserLoop_eq_ok es deserInit hne]
    exact ⟨_, rfl⟩

theorem C4_malformed_witness :
    (∃ m', deserialize_response [XmlEvent.errEvent "x"]
        = Except.error (OpenSrsError.XmlDeserialize m'))
      ∧ (∃ r, deserialize_response [XmlEvent.other] = Except.ok r) :=
  ⟨(C4_malformed [XmlEvent.errEvent "x"]).1 ⟨"x", by simp⟩,
   (C4_malformed [XmlEvent.other]).2 (fun m => by simp)⟩

/-! ### Query engine (src/opensrs/domain.rs) -/

/-- Request construction of `get_domains_by_expiredate` for one page:
XCP/DOMAIN/GET_DOMAINS_BY_EXPIREDATE with the formatted date range, the
fixed page size 40 and the current page index. -/
def buildRequest (exp_from exp_to : String) (page : Nat) : GetDomainsByExpireDateRequest :=
  { protocol := "XCP", object := "DOMAIN", action := "GET_DOMAINS_BY_EXPIREDATE",
    attributes := { exp_from := exp_from, exp_to := exp_to, limit := some 40, page := some page } }

/-- The pagination loop of `get_domains_by_expiredate`.  `send` abstracts
`send_request` (transport plus codec for one page); the dates are already
formatted strings.  The Rust loop is unbounded, so the model takes fuel
and `none` marks fuel exhaustion — every property is stated with enough
fuel.  The first component of the result records the requests issued, in
order. -/
def getDomainsLoop
    (send : GetDomainsByExpireDateRequest → Except OpenSrsError GetDomainsByExpireDateResponse)
    (exp_from exp_to : String) :
    Nat → Nat → List ExpiringDomain → List GetDomainsByExpireDateRequest →
    Option (List GetDomainsByExpireDateRequest × Except OpenSrsError (List ExpiringDomain))
  | 0, _, _, _ => none
  | fuel + 1, page, all_domains, reqs =>
      let request := buildRequest exp_from exp_to page
      match send request with
      | Except.error e => some (reqs ++ [request], Except.error e)
      | Except.ok response =>
          if response.is_success = false then
            some (reqs ++ [request],
              Except.error (OpenSrsError.ApiError response.response_code response.response_text))
          else
            let acc := all_domains ++ response.attributes.exp_domains
            if response.attributes.remainder = 0 then
              some (reqs ++ [request], Except.ok acc)
            else getDomainsLoop send exp_from exp_to fuel (page + 1) acc (reqs ++ [request])

/-- Embedding of `get_domains_by_expiredate` (src/opensrs/domain.rs):
run the pagination loop from page 0 with empty accumulators. -/
def get_domains_by_expiredate
    (send : GetDomainsByExpireDateRequest → Except OpenSrsError GetDomainsByExpireDateResponse)
    (exp_from exp_to : String) (fuel : Nat) :
    Option (List GetDomainsByExpireDateRequest × Except OpenSrsError (List ExpiringDomain)) :=
  getDomainsLoop send exp_from exp_to fuel 0 [] []

/-! ### Claim C7 -/

/-- C7: numeric read leniency — when, inside the data block, the
(nonempty, trimmed) text under the page, total or remainder key fails to
parse as the corresponding unsigned integer type, the field is set to 0;
and on any well-formed stream the deserializer does not fail. -/
theorem C7_lenient_numeric :
    (∀ (st : DeserState) (t : String),
        st.in_data_block = true → trimStr t ≠ "" → st.current_key = "page" →
          rustParseUnsigned u32Max (trimStr t) = none →
          (deserStep st (XmlEvent.text t)).page = 0)
      ∧ (∀ (st : DeserState) (t : String),
        st.in_data_block = true → trimStr t ≠ "" → st.current_key = "total" →
          rustParseUnsigned u32Max (trimStr t) = none →
          (deserStep st (XmlEvent.text t)).total = 0)
      ∧ (∀ (st : DeserState) (t : String),
        st.in_data_block = true → trimStr t ≠ "" → st.current_key = "remainder" →
          rustParseUnsigned u8Max (trimStr t) = none →
          (deserStep st (XmlEvent.text t)).remainder = 0)
      ∧ (∀ es : List XmlEvent, (∀ m, XmlEvent.errEvent m ∉ es) →
          ∃ r, deserialize_response es = Except.ok r) := by
  refine ⟨?_, ?_, ?_, ?_⟩
  · intro st t hdb htrim hkey hparse
    simp [deserStep, deserText, deserTextKeyed, hdb, htrim, hkey, hparse]
  · intro st t hdb htrim hkey hparse
    simp [deserStep, deserText, deserTextKeyed, hdb, htrim, hkey, hparse]
  · intro st t hdb htrim hkey hparse
    simp [deserStep, deserText, deserTextKeyed, hdb, htrim, hkey, hparse]
  · intro es hne
    unfold deserialize_response
    rw [deserLoop_eq_ok es deserInit hne]
    exact ⟨_, rfl⟩

theorem C7_lenient_numeric_witness :
    (deserStep { deserInit with in_data_block := true, current_key := "page" }
        (XmlEvent.text "abc")).page = 0
      ∧ (deserStep { deserInit with in_data_block := true, current_key := "total" }
        (XmlEvent.text "99999999999999999999")).total = 0
      ∧ (deserStep { deserInit with in_data_block := true, current_key := "remainder" }
        (XmlEvent.text "1x")).remainder = 0
      ∧ ∃ r, deserialize_response [] = Except.ok r :=
  ⟨C7_lenient_numeric.1 _ "abc" rfl (by decide) rfl (by decide),
   C7_lenient_numeric.2.1 _ "99999999999999999999" rfl (by decide) rfl (by decide),
   C7_lenient_numeric.2.2.1 _ "1x" rfl (by decide) rfl (by decide),
   C7_lenient_numeric.2.2.2 [] (fun m => by simp)⟩

/-! ### Claim C10 -/

/-- C10: the remainder field is parsed as an 8-bit unsigned integer —
when the (nonempty, trimmed) remainder text denotes an integer above 255
or is non-numeric, the parse fails and the field defaults to 0; and a
page whose response carries remainder 0 is treated as the last one: the
pagination loop terminates there, returning the accumulated domains. -/
theorem C10_remainder_u8 :
    (∀ (st : DeserState) (t : String),
        st.in_data_block = true → st.current_key = "remainder" → trimStr t ≠ "" →
          ((∃ n, parseDigits (stripPlus (trimStr t).data) = some n ∧ 255 < n)
            ∨ parseDigits (stripPlus (trimStr t).data) = none) →
          (deserStep st (XmlEvent.text t)).remainder = 0)
      ∧ (∀ send exp_from exp_to fuel page acc reqs r,
          send (buildRequest exp_from exp_to page) = Except.ok r →
          r.is_success = true → r.attributes.remainder = 0 →
          getDomainsLoop send exp_from exp_to (fuel + 1) page acc reqs
            = some (reqs ++ [buildRequest exp_from exp_to page],
                Except.ok (acc ++ r.attributes.exp_domains))) := by
  constructor
  · intro st t hdb hkey htrim hfail
    have hparse : rustParseUnsigned u8Max (trimStr t) = none := by
      unfold rustParseUnsigned u8Max
      rcases hfail with ⟨n, hn, hgt⟩ | hn
      · rw [hn]
        simp
        omega
      · rw [hn]
    simp [deserStep, deserText, deserTextKeyed, hdb, htrim, hkey, hparse]
  · intro send exp_from exp_to fuel page acc reqs r hsend hsucc hrem
    simp [getDomainsLoop, hsend, hsucc, hrem]

/-- A one-page transport whose response reports remainder 0. -/
def c10Resp : GetDomainsByExpireDateResponse :=
  { is_success := true, response_code := "200", response_text := "OK",
    attributes := { page := 0, total := 0, remainder := 0, exp_domains := [] } }

/-- Transport stub returning `c10Resp` for every request. -/
def c10Send : GetDomainsByExpireDateRequest → Except OpenSrsError GetDomainsByExpireDateResponse :=
  fun _ => Except.ok c10Resp

theorem C10_remainder_u8_witness :
    (deserStep { deserInit with in_data_block := true, current_key := "remainder" }
        (XmlEvent.text "300")).remainder = 0
      ∧ getDomainsLoop c10Send "2026-01-01" "2026-12-31" 1 0 [] []
          = some ([] ++ [buildRequest "2026-01-01" "2026-12-31" 0],
              Except.ok ([] ++ c10Resp.attributes.exp_domains)) :=
  ⟨C10_remainder_u8.1 _ "300" rfl rfl (by decide) (Or.inl ⟨300, by decide, by omega⟩),
   C10_remainder_u8.2 c10Send "2026-01-01" "2026-12-31" 0 0 [] [] c10Resp rfl rfl rfl⟩

/-! ### Claim C2 -/

/-- Event stream of a well-formed response document whose data block
carries `is_success = 1` and, inside the repeated-domains group, two
consecutive domain records with the four fields name, expiredate,
f_auto_renew, f_let_expire in wire order — the shape the OpenSRS dialect
produces (values always sit inside keyed `item` elements, so no text
node occurs directly under the `exp_domains` item). -/
def c2doc : List XmlEvent :=
  [XmlEvent.start "OPS_envelope" none,
   XmlEvent.start "body" none,
   XmlEvent.start "data_block" none,
   XmlEvent.start "dt_assoc" none,
   XmlEvent.start "item" (some "is_success"), XmlEvent.text "1", XmlEvent.endTag "item",
   XmlEvent.start "item" (some "attributes"),
   XmlEvent.start "dt_assoc" none,
   XmlEvent.start "item" (some "exp_domains"),
   XmlEvent.start "dt_array" none,
   XmlEvent.start "item" (some "0"),
   XmlEvent.start "dt_assoc" none,
   XmlEvent.start "item" (some "name"), XmlEvent.text "a.com", XmlEvent.endTag "item",
   XmlEvent.start "item" (some "expiredate"), XmlEvent.text "2026-01-01", XmlEvent.endTag "item",
   XmlEvent.start "item" (some "f_auto_renew"), XmlEvent.text "Y", XmlEvent.endTag "item",
   XmlEvent.start "item" (some "f_let_expire"), XmlEvent.text "N", XmlEvent.endTag "item",
   XmlEvent.endTag "dt_assoc", XmlEvent.endTag "item",
   XmlEvent.start "item" (some "1"),
   XmlEvent.start "dt_assoc" none,
   XmlEvent.start "item" (some "name"), XmlEvent.text "b.com", XmlEvent.endTag "item",
   XmlEvent.start "item" (some "expiredate"), XmlEvent.text "2026-02-01", XmlEvent.endTag "item",
   XmlEvent.start "item" (some "f_auto_renew"), XmlEvent.text "N", XmlEvent.endTag "item",
   XmlEvent.start "item" (some "f_let_expire"), XmlEvent.text "Y", XmlEvent.endTag "item",
   XmlEvent.endTag "dt_assoc", XmlEvent.endTag "item",
   XmlEvent.endTag "dt_array", XmlEvent.endTag "item",
   XmlEvent.endTag "dt_assoc", XmlEvent.endTag "item",
   XmlEvent.endTag "dt_assoc",
   XmlEvent.endTag "data_block",
   XmlEvent.endTag "body",
   XmlEvent.endTag "OPS_envelope"]

/-- C2: evaluation of the deserializer on `c2doc`.  The claim predicts a
two-element exp_domains sequence; the code yields an empty one, because
the `in_exp_domains` flag is only ever set upon observing a nonempty text
node whose current key is `exp_domains` — entering the group element sets
no flag, so the domain-field arms are all skipped. -/
theorem C2_domains_eval :
    deserialize_response c2doc
      = Except.ok
          { is_success := true, response_code := "", response_text := "",
            attributes := { page := 0, total := 0, remainder := 0, exp_domains := [] } } := by
  rfl

/-! ### Claim C8 -/

/-- The two components of the scanner state that locate a text node: the
most recent `key` attribute value and the data-block flag. -/
def ctxStep (ctx : String × Bool) (e : XmlEvent) : String × Bool :=
  match e with
  | XmlEvent.start n key =>
      if n = "data_block" then (ctx.1, true)
      else if n = "item" then
        match key with
        | some k => (k, ctx.2)
        | none => ctx
      else ctx
  | XmlEvent.endTag n => if n = "data_block" then (ctx.1, false) else ctx
  | _ => ctx

/-- The nonempty trimmed text nodes observed under the given key inside
the data block, in document order. -/
def keyTexts (key : String) : List XmlEvent → String × Bool → List String
  | [], _ => []
  | e :: rest, ctx =>
      (match e with
       | XmlEvent.text t =>
           if ctx.2 = true ∧ trimStr t ≠ "" ∧ ctx.1 = key then [trimStr t] else []
       | _ => []) ++ keyTexts key rest (ctxStep ctx e)

/-- Spec-side reading of C8: is_success is true exactly when the text
node under the is_success key inside the data block equals "1" or equals
"true" up to ASCII case (with repeated nodes the last assignment wins);
any other text, or the absence of such a node, yields false. -/
def isSuccessOfDoc (es : List XmlEvent) : Bool :=
  match (keyTexts "is_success" es ("", false)).getLast? with
  | some t => decide (t = "1" ∨ asciiLower t = "true")
  | none => false

theorem deserTextKeyed_shape (st : DeserState) (text : String) :
    (deserTextKeyed st text).current_key = st.current_key
      ∧ (deserTextKeyed st text).in_data_block = st.in_data_block
      ∧ (deserTextKeyed st text).is_success
          = (if st.current_key = "is_success"
              then (text == "1" || asciiLower text == "true") else st.is_success) := by
  rw [deserTextKeyed.eq_def]
  by_cases h1 : st.current_key = "is_success"
  · rw [if_pos h1, if_pos h1]
    exact ⟨rfl, rfl, rfl⟩
  · rw [if_neg h1, if_neg h1]
    by_cases h2 : st.current_key = "response_code"
    · rw [if_pos h2]; exact ⟨rfl, rfl, rfl⟩
    · rw [if_neg h2]
      by_cases h3 : st.current_key = "response_text"
      · rw [if_pos h3]; exact ⟨rfl, rfl, rfl⟩
      · rw [if_neg h3]
        by_cases h4 : st.current_key = "page"
        · rw [if_pos h4]; exact ⟨rfl, rfl, rfl⟩
        · rw [if_neg h4]
          by_cases h5 : st.current_key = "total"
          · rw [if_pos h5]; exact ⟨rfl, rfl, rfl⟩
          · rw [if_neg h5]
            by_cases h6 : st.current_key = "remainder"
            · rw [if_pos h6]; exact ⟨rfl, rfl, rfl⟩
            · rw [if_neg h6]
              by_cases h7 : st.current_key = "name" ∧ st.in_exp_domains = true
              · rw [if_pos h7]; cases st.current_domain <;> exact ⟨rfl, rfl, rfl⟩
              · rw [if_neg h7]
                by_cases h8 : st.current_key = "expiredate" ∧ st.in_exp_domains = true
                · rw [if_pos h8]; cases st.current_domain <;> exact ⟨rfl, rfl, rfl⟩
                · rw [if_neg h8]
                  by_cases h9 : st.current_key = "f_auto_renew" ∧ st.in_exp_domains = true
                  · rw [if_pos h9]; cases st.current_domain <;> exact ⟨rfl, rfl, rfl⟩
                  · rw [if_neg h9]
                    by_cases h10 : st.current_key = "f_let_expire" ∧ st.in_exp_domains = true
                    · rw [if_pos h10]; cases st.current_domain <;> exact ⟨rfl, rfl, rfl⟩
                    · rw [if_neg h10]
                      by_cases h11 : st.current_key = "attributes"
                      · rw [if_pos h11]; exact ⟨rfl, rfl, rfl⟩
                      · rw [if_neg h11]
                        by_cases h12 : st.current_key = "exp_domains"
                        · rw [if_pos h12]; exact ⟨rfl, rfl, rfl⟩
                        · rw [if_neg h12]; exact ⟨rfl, rfl, rfl⟩

theorem deserText_key (st : DeserState) (t : String) :
    (deserText st t).current_key = st.current_key := by
  unfold deserText
  by_cases h1 : st.in_data_block = false
  · rw [if_pos h1]
  · rw [if_neg h1]
    by_cases h2 : trimStr t = ""
    · rw [if_pos h2]
    · rw [if_neg h2]
      exact (deserTextKeyed_shape st (trimStr t)).1

theorem deserText_db (st : DeserState) (t : String) :
    (deserText st t).in_data_block = st.in_data_block := by
  unfold deserText
  by_cases h1 : st.in_data_block = false
  · rw [if_pos h1]
  · rw [if_neg h1]
    by_cases h2 : trimStr t = ""
    · rw [if_pos h2]
    · rw [if_neg h2]
      exact (deserTextKeyed_shape st (trimStr t)).2.1

theorem deserStep_ctx (st : DeserState) (e : XmlEvent) :
    ((deserStep st e).current_key, (deserStep st e).in_data_block)
      = ctxStep (st.current_key, st.in_data_block) e := by
  cases e with
  | start n key =>
      simp only [deserStep, ctxStep]
      split_ifs <;> try rfl
      cases key <;> rfl
  | text t => simp [deserStep, ctxStep, deserText_key, deserText_db]
  | endTag n =>
      simp only [deserStep, ctxStep]
      split_ifs <;> rfl
  | errEvent m => rfl
  | other => rfl

theorem deserText_is_success (st : DeserState) (t : String) :
    (deserText st t).is_success
      = if st.in_data_block = true ∧ trimStr t ≠ "" ∧ st.current_key = "is_success"
          then (trimStr t == "1" || asciiLower (trimStr t) == "true")
          else st.is_success := by
  unfold deserText
  cases hdb : st.in_data_block with
  | false =>
      rw [if_pos rfl,
        if_neg (show ¬(false = true ∧ trimStr t ≠ "" ∧ st.current_key = "is_success") by simp)]
  | true =>
      rw [if_neg (show ¬(true = false) by simp)]
      by_cases h2 : trimStr t = ""
      · rw [if_pos h2,
          if_neg (show ¬(true = true ∧ trimStr t ≠ "" ∧ st.current_key = "is_success") by
            simp [h2])]
      · rw [if_neg h2, (deserTextKeyed_shape st (trimStr t)).2.2]
        by_cases h3 : st.current_key = "is_success"
        · rw [if_pos h3, if_pos ⟨rfl, h2, h3⟩]
        · rw [if_neg h3,
            if_neg (show ¬(true = true ∧ trimStr t ≠ "" ∧ st.current_key = "is_success") from
              fun hc => h3 hc.2.2)]

theorem deserStep_is_success_of_not_text (st : DeserState) (e : XmlEvent)
    (h : ∀ t, e ≠ XmlEvent.text t) :
    (deserStep st e).is_success = st.is_success := by
  cases e with
  | start n key =>
      simp only [deserStep]
      split_ifs <;> try rfl
      cases key <;> rfl
  | text t => exact absurd rfl (h t)
  | endTag n =>
      simp only [deserStep]
      split_ifs <;> rfl
  | errEvent m => rfl
  | other => rfl

theorem foldl_is_success (es : List XmlEvent) :
    ∀ st : DeserState,
      (es.foldl deserStep st).is_success
        = match (keyTexts "is_success" es (st.current_key, st.in_data_block)).getLast? with
          | some t => (t == "1" || asciiLower t == "true")
          | none => st.is_success := by
  induction es with
  | nil => intro st; rfl
  | cons e rest ih =>
      intro st
      rw [List.foldl_cons, ih (deserStep st e), deserStep_ctx st e]
      cases e with
      | text t =>
          have hstep : deserStep st (XmlEvent.text t) = deserText st t := rfl
          by_cases hq : st.in_data_block = true ∧ trimStr t ≠ "" ∧ st.current_key = "is_success"
          · have hs : (deserStep st (XmlEvent.text t)).is_success
                = (trimStr t == "1" || asciiLower (trimStr t) == "true") := by
              rw [hstep, deserText_is_success, if_pos hq]
            have hexp : keyTexts "is_success" (XmlEvent.text t :: rest) (st.current_key, st.in_data_block)
                = trimStr t :: keyTexts "is_success" rest (st.current_key, st.in_data_block) := by
              simp [keyTexts, ctxStep, hq.1, hq.2.1, hq.2.2]
            rw [hexp]
            have hctxt : ctxStep (st.current_key, st.in_data_block) (XmlEvent.text t)
                = (st.current_key, st.in_data_block) := rfl
            rw [hctxt]
            cases hL : keyTexts "is_success" rest (st.current_key, st.in_data_block) with
            | nil => simp [hs]
            | cons a l =>
                rw [show (trimStr t :: a :: l).getLast? = (a :: l).getLast? from
                  List.getLast?_append_of_ne_nil [trimStr t] (by simp)]
                rw [List.getLast?_eq_getLast (a :: l) (by simp)]
          · have hs : (deserStep st (XmlEvent.text t)).is_success = st.is_success := by
              rw [hstep, deserText_is_success, if_neg hq]
            have hexp : keyTexts "is_success" (XmlEvent.text t :: rest) (st.current_key, st.in_data_block)
                = keyTexts "is_success" rest (st.current_key, st.in_data_block) := by
              simp only [keyTexts]
              rw [if_neg (show ¬((st.current_key, st.in_data_block).2 = true ∧ trimStr t ≠ "" ∧
                (st.current_key, st.in_data_block).1 = "is_success") from hq)]
              rfl
            rw [hexp, hs,
              show ctxStep (st.current_key, st.in_data_block) (XmlEvent.text t)
                = (st.current_key, st.in_data_block) from rfl]
      | start n key =>
          have hs := deserStep_is_success_of_not_text st (XmlEvent.start n key) (by simp)
          rw [hs]
          have hexp : keyTexts "is_success" (XmlEvent.start n key :: rest) (st.current_key, st.in_data_block)
              = keyTexts "is_success" rest (ctxStep (st.current_key, st.in_data_block) (XmlEvent.start n key)) := by
            simp [keyTexts]
          rw [hexp]
      | endTag n =>
          have hs := deserStep_is_success_of_not_text st (XmlEvent.endTag n) (by simp)
          rw [hs]
          have hexp : keyTexts "is_success" (XmlEvent.endTag n :: rest) (st.current_key, st.in_data_block)
              = keyTexts "is_success" rest (ctxStep (st.current_key, st.in_data_block) (XmlEvent.endTag n)) := by
            simp [keyTexts]
          rw [hexp]
      | errEvent m =>
          have hs := deserStep_is_success_of_not_text st (XmlEvent.errEvent m) (by simp)
          rw [hs]
          have hexp : keyTexts "is_success" (XmlEvent.errEvent m :: rest) (st.current_key, st.in_data_block)
              = keyTexts "is_success" rest (ctxStep (st.current_key, st.in_data_block) (XmlEvent.errEvent m)) := by
            simp [keyTexts]
          rw [hexp]
      | other =>
          have hs := deserStep_is_success_of_not_text st XmlEvent.other (by simp)
          rw [hs]
          have hexp : keyTexts "is_success" (XmlEvent.other :: rest) (st.current_key, st.in_data_block)
              = keyTexts "is_success" rest (ctxStep (st.current_key, st.in_data_block) XmlEvent.other) := by
            simp [keyTexts]
          rw [hexp]

theorem beq_or_decide (t : String) :
    (t == "1" || asciiLower t == "true") = decide (t = "1" ∨ asciiLower t = "true") := by
  by_cases h1 : t = "1" <;> by_cases h2 : asciiLower t = "true" <;> simp [h1, h2]

/-- C8: for every well-formed input, the is_success field of the
deserialized response is governed exactly by the text under the
is_success key inside the data block: it is true exactly when that text
equals "1" or equals "true" up to ASCII case, and false for any other
text or when no such text occurs. -/
theorem C8_is_success (es : List XmlEvent) (r : GetDomainsByExpireDateResponse)
    (h : deserialize_response es = Except.ok r) :
    r.is_success = isSuccessOfDoc es := by
  by_cases herr : ∃ m, XmlEvent.errEvent m ∈ es
  · obtain ⟨m, hm⟩ := herr
    obtain ⟨m', hm'⟩ := deserLoop_eq_error es deserInit m hm
    rw [deserialize_response, hm'] at h
    cases h
  · have hne : ∀ m, XmlEvent.errEvent m ∉ es := by
      intro m hm; exact herr ⟨m, hm⟩
    rw [deserialize_response, deserLoop_eq_ok es deserInit hne] at h
    have hr : r.is_success = (es.foldl deserStep deserInit).is_success := by
      cases h; rfl
    rw [hr, foldl_is_success es deserInit]
    unfold isSuccessOfDoc
    have hctx : (deserInit.current_key, deserInit.in_data_block) = ("", false) := rfl
    rw [hctx]
    cases (keyTexts "is_success" es ("", false)).getLast? with
    | none => rfl
    | some t => simp [beq_or_decide]

/-- Concrete document used to instantiate C8. -/
def c8doc : List XmlEvent :=
  [XmlEvent.start "data_block" none,
   XmlEvent.start "item" (some "is_success"), XmlEvent.text "TRUE",
   XmlEvent.endTag "item", XmlEvent.endTag "data_block"]

theorem C8_is_success_witness :
    (GetDomainsByExpireDateResponse.mk true "" ""
        (GetDomainsByExpireDateResponseAttrs.mk 0 0 0 [])).is_success
      = isSuccessOfDoc c8doc :=
  C8_is_success c8doc
    (GetDomainsByExpireDateResponse.mk true "" ""
      (GetDomainsByExpireDateResponseAttrs.mk 0 0 0 [])) rfl

/-! ### Claims C1 and C3 -/

theorem range_shift_map {α : Type} (f : Nat → α) (p M : Nat) :
    (List.range (M + 1)).map (fun j => f (p + j))
      = f p :: (List.range M).map (fun j => f (p + 1 + j)) := by
  rw [List.range_succ_eq_map, List.map_cons, List.map_map, Nat.add_zero]
  congr 1
  apply List.map_congr_left
  intro j _
  show f (p + (j + 1)) = f (p + 1 + j)
  exact congrArg f (by omega)

/-- Running the loop across `M` successful pages whose remainder is
nonzero advances page, accumulator and request log in lockstep. -/
theorem getDomainsLoop_advance
    (send : GetDomainsByExpireDateRequest → Except OpenSrsError GetDomainsByExpireDateResponse)
    (exp_from exp_to : String) (resp : Nat → GetDomainsByExpireDateResponse) :
    ∀ (M p fuel : Nat) (acc : List ExpiringDomain) (reqs : List GetDomainsByExpireDateRequest),
      M ≤ fuel →
      (∀ j, j < M → send (buildRequest exp_from exp_to (p + j)) = Except.ok (resp (p + j))
        ∧ (resp (p + j)).is_success = true
        ∧ (resp (p + j)).attributes.remainder ≠ 0) →
      getDomainsLoop send exp_from exp_to fuel p acc reqs
        = getDomainsLoop send exp_from exp_to (fuel - M) (p + M)
            (acc ++ ((List.range M).map (fun j => (resp (p + j)).attributes.exp_domains)).flatten)
            (reqs ++ (List.range M).map (fun j => buildRequest exp_from exp_to (p + j))) := by
  intro M
  induction M with
  | zero => intro p fuel acc reqs _ _; simp
  | succ M ih =>
      intro p fuel acc reqs hfuel hpages
      obtain ⟨f, rfl⟩ : ∃ f, fuel = f + 1 := ⟨fuel - 1, by omega⟩
      have h0 := hpages 0 (by omega)
      rw [Nat.add_zero] at h0
      obtain ⟨hsend, hsucc, hrem⟩ := h0
      have hstep : getDomainsLoop send exp_from exp_to (f + 1) p acc reqs
          = getDomainsLoop send exp_from exp_to f (p + 1)
              (acc ++ (resp p).attributes.exp_domains)
              (reqs ++ [buildRequest exp_from exp_to p]) := by
        simp [getDomainsLoop, hsend, hsucc, hrem]
      rw [hstep,
        ih (p + 1) f (acc ++ (resp p).attributes.exp_domains)
          (reqs ++ [buildRequest exp_from exp_to p]) (by omega)
          (fun j hj => by
            have hh := hpages (j + 1) (by omega)
            rwa [show p + (j + 1) = p + 1 + j by omega] at hh)]
      rw [range_shift_map (fun i => (resp i).attributes.exp_domains) p M,
        range_shift_map (fun i => buildRequest exp_from exp_to i) p M]
      rw [show f + 1 - (M + 1) = f - M by omega, show p + (M + 1) = p + 1 + M by omega]
      simp [List.append_assoc]

/-- The loop stops on the first page whose response carries remainder 0,
returning the accumulated domains. -/
theorem getDomainsLoop_last
    (send : GetDomainsByExpireDateRequest → Except OpenSrsError GetDomainsByExpireDateResponse)
    (exp_from exp_to : String) (p f : Nat) (acc : List ExpiringDomain)
    (reqs : List GetDomainsByExpireDateRequest) (r : GetDomainsByExpireDateResponse)
    (hsend : send (buildRequest exp_from exp_to p) = Except.ok r)
    (hsucc : r.is_success = true) (hrem : r.attributes.remainder = 0) :
    getDomainsLoop send exp_from exp_to (f + 1) p acc reqs
      = some (reqs ++ [buildRequest exp_from exp_to p],
          Except.ok (acc ++ r.attributes.exp_domains)) := by
  simp [getDomainsLoop, hsend, hsucc, hrem]

/-- The loop aborts on the first non-success response with the ApiError
carrying that response's code and text. -/
theorem getDomainsLoop_apiError
    (send : GetDomainsByExpireDateRequest → Except OpenSrsError GetDomainsByExpireDateResponse)
    (exp_from exp_to : String) (p f : Nat) (acc : List ExpiringDomain)
    (reqs : List GetDomainsByExpireDateRequest) (r : GetDomainsByExpireDateResponse)
    (hsend : send (buildRequest exp_from exp_to p) = Except.ok r)
    (hfail : r.is_success = false) :
    getDomainsLoop send exp_from exp_to (f + 1) p acc reqs
      = some (reqs ++ [buildRequest exp_from exp_to p],
          Except.error (OpenSrsError.ApiError r.response_code r.response_text)) := by
  simp [getDomainsLoop, hsend, hfail]

/-- C1: when the transport answers pages 0..N-1 with successful
responses whose remainder is nonzero and page N with a successful
response whose remainder is 0, get_domains_by_expiredate issues exactly
the N+1 requests for pages 0,...,N in that order — each with limit 40
and the page index — and returns Ok of the concatenation of the pages'
domain sequences in page order. -/
theorem C1_pagination
    (send : GetDomainsByExpireDateRequest → Except OpenSrsError GetDomainsByExpireDateResponse)
    (exp_from exp_to : String) (N : Nat) (resp : Nat → GetDomainsByExpireDateResponse)
    (hsend : ∀ i, i ≤ N → send (buildRequest exp_from exp_to i) = Except.ok (resp i))
    (hsucc : ∀ i, i ≤ N → (resp i).is_success = true)
    (hrem : ∀ i, i < N → (resp i).attributes.remainder ≠ 0)
    (hlast : (resp N).attributes.remainder = 0)
    (fuel : Nat) (hfuel : N + 1 ≤ fuel) :
    get_domains_by_expiredate send exp_from exp_to fuel
        = some ((List.range (N + 1)).map (fun i => buildRequest exp_from exp_to i),
            Except.ok
              (((List.range (N + 1)).map (fun i => (resp i).attributes.exp_domains)).flatten))
      ∧ ∀ i, i ≤ N → (buildRequest exp_from exp_to i).attributes.limit = some 40
          ∧ (buildRequest exp_from exp_to i).attributes.page = some i := by
  refine ⟨?_, fun i _ => ⟨rfl, rfl⟩⟩
  unfold get_domains_by_expiredate
  rw [getDomainsLoop_advance send exp_from exp_to resp N 0 fuel [] [] (by omega)
    (fun j hj => by
      simpa using ⟨hsend j (by omega), hsucc j (by omega), hrem j hj⟩)]
  obtain ⟨f, hf⟩ : ∃ f, fuel - N = f + 1 := ⟨fuel - N - 1, by omega⟩
  rw [hf]
  rw [show (0 : Nat) + N = N by omega]
  rw [getDomainsLoop_last send exp_from exp_to N f _ _ (resp N)
    (hsend N (by omega)) (hsucc N (by omega)) hlast]
  rw [List.range_succ]
  simp [List.append_assoc]

/-- Two-page transport used to instantiate C1: page 0 reports more pages
remaining, page 1 reports remainder 0. -/
def c1RespA : GetDomainsByExpireDateResponse :=
  GetDomainsByExpireDateResponse.mk true "200" "OK"
    (GetDomainsByExpireDateResponseAttrs.mk 0 41 1
      [ExpiringDomain.mk "a.com" "2026-01-02" "Y" "N"])

/-- Final page of the C1 transport. -/
def c1RespB : GetDomainsByExpireDateResponse :=
  GetDomainsByExpireDateResponse.mk true "200" "OK"
    (GetDomainsByExpireDateResponseAttrs.mk 1 41 0
      [ExpiringDomain.mk "b.com" "2026-03-04" "N" "Y"])

/-- Page-indexed view of the C1 transport's responses. -/
def c1Resp : Nat → GetDomainsByExpireDateResponse :=
  fun i => if i = 0 then c1RespA else c1RespB

/-- The C1 transport stub. -/
def c1Send : GetDomainsByExpireDateRequest → Except OpenSrsError GetDomainsByExpireDateResponse :=
  fun req => Except.ok (if req.attributes.page = some 0 then c1RespA else c1RespB)

theorem C1_pagination_witness :
    (get_domains_by_expiredate c1Send "2026-01-01" "2026-12-31" 5
        = some ((List.range 2).map (fun i => buildRequest "2026-01-01" "2026-12-31" i),
            Except.ok
              (((List.range 2).map (fun i => (c1Resp i).attributes.exp_domains)).flatten))
      ∧ ∀ i, i ≤ 1 → (buildRequest "2026-01-01" "2026-12-31" i).attributes.limit = some 40
          ∧ (buildRequest "2026-01-01" "2026-12-31" i).attributes.page = some i) :=
  C1_pagination c1Send "2026-01-01" "2026-12-31" 1 c1Resp
    (fun i hi => by interval_cases i <;> rfl)
    (fun i hi => by interval_cases i <;> rfl)
    (fun i hi => by interval_cases i; simp [c1Resp, c1RespA])
    (by simp [c1Resp, c1RespB])
    5 (by omega)

/-- C3: if pages before M succeed with remainder nonzero and page M's
response deserializes with is_success = false, the fetch stops at page M
with ApiError carrying that response's code and text: exactly M+1
requests are issued and the result is the error — no accumulated domains
are surfaced. -/
theorem C3_api_error_short_circuit
    (send : GetDomainsByExpireDateRequest → Except OpenSrsError GetDomainsByExpireDateResponse)
    (exp_from exp_to : String) (M : Nat) (resp : Nat → GetDomainsByExpireDateResponse)
    (r : GetDomainsByExpireDateResponse)
    (hok : ∀ i, i < M → send (buildRequest exp_from exp_to i) = Except.ok (resp i)
      ∧ (resp i).is_success = true ∧ (resp i).attributes.remainder ≠ 0)
    (hsend : send (buildRequest exp_from exp_to M) = Except.ok r)
    (hfail : r.is_success = false)
    (fuel : Nat) (hfuel : M + 1 ≤ fuel) :
    get_domains_by_expiredate send exp_from exp_to fuel
      = some ((List.range (M + 1)).map (fun i => buildRequest exp_from exp_to i),
          Except.error (OpenSrsError.ApiError r.response_code r.response_text)) := by
  unfold get_domains_by_expiredate
  rw [getDomainsLoop_advance send exp_from exp_to resp M 0 fuel [] [] (by omega)
    (fun j hj => by simpa using hok j hj)]
  obtain ⟨f, hf⟩ : ∃ f, fuel - M = f + 1 := ⟨fuel - M - 1, by omega⟩
  rw [hf]
  rw [show (0 : Nat) + M = M by omega]
  rw [getDomainsLoop_apiError send exp_from exp_to M f _ _ r hsend hfail]
  rw [List.range_succ]
  simp [List.append_assoc]

/-- Failing first response used to instantiate C3. -/
def c3Resp : GetDomainsByExpireDateResponse :=
  { is_success := false, response_code := "C1", response_text := "M1",
    attributes := { page := 0, total := 0, remainder := 0, exp_domains := [] } }

/-- The C3 transport stub: every page fails. -/
def c3Send : GetDomainsByExpireDateRequest → Except OpenSrsError GetDomainsByExpireDateResponse :=
  fun _ => Except.ok c3Resp

theorem C3_api_error_short_circuit_witness :
    get_domains_by_expiredate c3Send "2026-01-01" "2026-12-31" 1
      = some ((List.range 1).map (fun i => buildRequest "2026-01-01" "2026-12-31" i),
          Except.error (OpenSrsError.ApiError c3Resp.response_code c3Resp.response_text)) :=
  C3_api_error_short_circuit c3Send "2026-01-01" "2026-12-31" 0 (fun _ => c3Resp) c3Resp
    (fun i hi => absurd hi (Nat.not_lt_zero i)) rfl rfl 1 (by omega)

/-! ### Claim C6 — substring machinery for the serializer output -/

/-- `pat` occurs contiguously (at character level) inside `s`. -/
def occursIn (pat s : String) : Prop := pat.data <:+: s.data

instance occursInDec (pat s : String) : Decidable (occursIn pat s) :=
  inferInstanceAs (Decidable (pat.data <:+: s.data))

/-- The opening of the protocol item (tail of SER1). -/
def KPROT : String := "<item key=\"protocol\">"

/-- SER1 without its final protocol item opening. -/
def SER1A : String := "<?xml version='1.0' encoding='UTF-8' standalone='no' ?>\n<!DOCTYPE OPS_envelope SYSTEM 'ops.dtd'>\n<OPS_envelope>\n  <header>\n    <version>0.9</version>\n  </header>\n  <body>\n    <data_block>\n      <dt_assoc>\n        "

/-- A closing item tag. -/
def ECLOSE : String := "</item>"

/-- Indentation between a closing item and the next 8-column item. -/
def SP8 : String := "\n        "

/-- The opening of the object item. -/
def KOBJ : String := "<item key=\"object\">"

/-- The opening of the action item. -/
def KACT : String := "<item key=\"action\">"

/-- The nested attributes wrapper between the action item and exp_from. -/
def ATTR4 : String := "\n        <item key=\"attributes\">\n          <dt_assoc>\n            "

/-- The opening of the exp_from item. -/
def KEF : String := "<item key=\"exp_from\">"

/-- Indentation before the exp_to item. -/
def SP12 : String := "\n            "

/-- The opening of the exp_to item. -/
def KET : String := "<item key=\"exp_to\">"

/-- The limit item opening whose absence C6 asserts. -/
def LIMITPAT : String := "<item key=\"limit\">"

/-- The page item opening whose absence C6 asserts. -/
def PAGEPAT : String := "<item key=\"page\">"

theorem ser1_split : SER1.data = SER1A.data ++ KPROT.data := by decide

theorem ser2_split : SER2.data = ECLOSE.data ++ (SP8.data ++ KOBJ.data) := by decide

theorem ser3_split : SER3.data = ECLOSE.data ++ (SP8.data ++ KACT.data) := by decide

theorem ser4_split : SER4.data = ECLOSE.data ++ (ATTR4.data ++ KEF.data) := by decide

theorem ser5_split : SER5.data = ECLOSE.data ++ (SP12.data ++ KET.data) := by decide

/-- Skip one leading piece when exhibiting an occurrence. -/
theorem segStep {α : Type} (a : List α) {p l : List α} (h : p <:+: l) : p <:+: a ++ l := by
  obtain ⟨s, t, hst⟩ := h
  exact ⟨a ++ s, t, by rw [← hst]; simp [List.append_assoc]⟩

/-- A pattern split into three consecutive blocks occurs at the head of
the matching chain. -/
theorem seg_three0 {α : Type} (x y z r : List α) :
    (x ++ (y ++ z)) <:+: x ++ (y ++ (z ++ r)) :=
  ⟨[], r, by simp [List.append_assoc]⟩

/-- Skip one leading piece when exhibiting a suffix. -/
theorem sufStep {α : Type} (a : List α) {p l : List α} (h : p <:+ l) : p <:+ a ++ l := by
  obtain ⟨t, ht⟩ := h
  exact ⟨a ++ t, by rw [← ht, List.append_assoc]⟩

/-- Case analysis for an occurrence inside a concatenation: it lies in
the left part, in the right part, or straddles the boundary. -/
theorem isInfix_append_cases {α : Type} (p a b : List α) (h : p <:+: a ++ b) :
    p <:+: a ∨ p <:+: b ∨
      ∃ s t, p = s ++ t ∧ s ≠ [] ∧ t ≠ [] ∧ s <:+ a ∧ t <+: b := by
  obtain ⟨l, r, hl⟩ := h
  rw [List.append_assoc] at hl
  rcases List.append_eq_append_iff.mp hl with ⟨w, hw1, hw2⟩ | ⟨w, hw1, hw2⟩
  · rcases List.append_eq_append_iff.mp hw2 with ⟨v, hv1, hv2⟩ | ⟨v, hv1, hv2⟩
    · left
      exact ⟨l, v, by rw [hw1, hv1]; exact List.append_assoc l p v⟩
    · rcases eq_or_ne w [] with hw | hw
      · right; left
        subst hw
        rw [List.nil_append] at hv1
        exact ⟨[], r, by rw [List.nil_append, hv1]; exact hv2.symm⟩
      · rcases eq_or_ne v [] with hv | hv
        · left
          subst hv
          rw [List.append_nil] at hv1
          exact ⟨l, [], by rw [List.append_nil, hw1, hv1]⟩
        · right; right
          exact ⟨w, v, hv1, hw, hv, ⟨l, hw1.symm⟩, ⟨r, hv2.symm⟩⟩
  · right; left
    exact ⟨w, r, by rw [hw2]; exact List.append_assoc w p r⟩

/-- A piece of the output is good for `pat` when `pat` neither occurs in
it nor can a proper nonempty pattern head end inside it. -/
def GoodPiece (pat : List Char) (L : List Char) : Prop :=
  ¬ (pat <:+: L) ∧ ∀ n, n < pat.length → 0 < n → ¬ ((pat.take n) <:+ L)

instance goodPieceDec (pat L : List Char) : Decidable (GoodPiece pat L) :=
  inferInstanceAs (Decidable (_ ∧ _))

/-- If every piece is good for `pat`, `pat` does not occur in the
concatenation of the pieces. -/
theorem GoodPiece_not_infix (pat : List Char) (hne : pat ≠ []) :
    ∀ pieces : List (List Char), (∀ L ∈ pieces, GoodPiece pat L) →
      ¬ (pat <:+: pieces.flatten) := by
  intro pieces
  induction pieces with
  | nil =>
      intro _ h
      rw [List.flatten_nil] at h
      exact hne (List.sublist_nil.mp h.sublist)
  | cons L rest ih =>
      intro hgood h
      rw [List.flatten_cons] at h
      rcases isInfix_append_cases pat L rest.flatten h with h1 | h1 | ⟨s, t, hst, hs, ht, hsuf, _⟩
      · exact (hgood L (by simp)).1 h1
      · exact ih (fun P hP => hgood P (by simp [hP])) h1
      · have hsp : s <+: pat := ⟨t, hst.symm⟩
        have hlen : s.length < pat.length := by
          rw [hst, List.length_append]
          have := List.length_pos.mpr ht
          omega
        have h0 : 0 < s.length := List.length_pos.mpr hs
        have htake : s = pat.take s.length := List.prefix_iff_eq_take.mp hsp
        exact (hgood L (by simp)).2 s.length hlen h0 (htake ▸ hsuf)

/-- A piece containing no `<` is good for any pattern starting with `<`. -/
theorem GoodPiece_of_no_lt (pat L : List Char) (hhead : pat.head? = some '<')
    (hL : '<' ∉ L) : GoodPiece pat L := by
  obtain ⟨pt, rfl⟩ : ∃ pt, pat = '<' :: pt := by
    cases pat with
    | nil => cases hhead
    | cons c rest =>
        simp only [List.head?_cons, Option.some.injEq] at hhead
        exact ⟨rest, by rw [hhead]⟩
  constructor
  · intro h
    exact hL (h.subset (by simp))
  · intro n _ h0 h
    apply hL
    apply h.subset
    cases n with
    | zero => omega
    | succ m => simp [List.take_succ_cons]

theorem natDigitChar_ne_lt (n : Nat) : natDigitChar n ≠ '<' := by
  have h : n % 10 < 10 := Nat.mod_lt _ (by omega)
  have hall : ∀ m, m < 10 → Char.ofNat (48 + m) ≠ '<' := by decide
  exact hall (n % 10) h

theorem natDigitsAux_no_lt : ∀ n : Nat, '<' ∉ natDigitsAux n := by
  intro n
  induction n using Nat.strong_induction_on with
  | _ n ih =>
      by_cases hlt : n < 10
      · rw [natDigitsAux.eq_def, dif_pos hlt]
        intro hmem
        simp only [List.mem_singleton] at hmem
        exact natDigitChar_ne_lt n hmem.symm
      · rw [natDigitsAux.eq_def, dif_neg hlt]
        intro hmem
        rcases List.mem_append.mp hmem with h | h
        · exact ih (n / 10) (Nat.div_lt_self (by omega) (by omega)) h
        · simp only [List.mem_singleton] at h
          exact natDigitChar_ne_lt n h.symm

theorem gp_limit_templates :
    GoodPiece LIMITPAT.data SER1.data ∧ GoodPiece LIMITPAT.data SER2.data
      ∧ GoodPiece LIMITPAT.data SER3.data ∧ GoodPiece LIMITPAT.data SER4.data
      ∧ GoodPiece LIMITPAT.data SER5.data ∧ GoodPiece LIMITPAT.data ECLOSE.data
      ∧ GoodPiece LIMITPAT.data SERPAGE.data ∧ GoodPiece LIMITPAT.data SEREND.data := by
  decide

theorem gp_page_templates :
    GoodPiece PAGEPAT.data SER1.data ∧ GoodPiece PAGEPAT.data SER2.data
      ∧ GoodPiece PAGEPAT.data SER3.data ∧ GoodPiece PAGEPAT.data SER4.data
      ∧ GoodPiece PAGEPAT.data SER5.data ∧ GoodPiece PAGEPAT.data ECLOSE.data
      ∧ GoodPiece PAGEPAT.data SERLIMIT.data ∧ GoodPiece PAGEPAT.data SEREND.data := by
  decide

/-- Good pieces for the limit pattern built from `<`-free content. -/
theorem gp_limit_field (L : List Char) (hL : '<' ∉ L) : GoodPiece LIMITPAT.data L :=
  GoodPiece_of_no_lt _ _ (by decide) hL

/-- Good pieces for the page pattern built from `<`-free content. -/
theorem gp_page_field (L : List Char) (hL : '<' ∉ L) : GoodPiece PAGEPAT.data L :=
  GoodPiece_of_no_lt _ _ (by decide) hL

/-- The eleven fixed pieces of the serializer output, in order. -/
def serFixed (request : GetDomainsByExpireDateRequest) : List (List Char) :=
  [SER1.data, request.protocol.data, SER2.data, request.object.data, SER3.data,
   request.action.data, SER4.data, request.attributes.exp_from.data, SER5.data,
   request.attributes.exp_to.data, ECLOSE.data]

/-- The optional limit/page pieces and the closing envelope. -/
def serTail (request : GetDomainsByExpireDateRequest) : List (List Char) :=
  (match request.attributes.limit with
   | some limit => [SERLIMIT.data, (natDecimal limit).data, ECLOSE.data]
   | none => [])
    ++ (match request.attributes.page with
        | some page => [SERPAGE.data, (natDecimal page).data, ECLOSE.data]
        | none => [])
    ++ [SEREND.data]

/-- All pieces of the serializer output. -/
def serPieces (request : GetDomainsByExpireDateRequest) : List (List Char) :=
  serFixed request ++ serTail request

theorem serialize_data_eq (request : GetDomainsByExpireDateRequest) (out : String)
    (h : serialize_request request = Except.ok out) :
    out.data = (serPieces request).flatten := by
  have hx : (SER1 ++ request.protocol ++ SER2 ++ request.object ++ SER3 ++ request.action ++
      SER4 ++ request.attributes.exp_from ++ SER5 ++ request.attributes.exp_to ++ "</item>" ++
      (match request.attributes.limit with
       | some limit => SERLIMIT ++ natDecimal limit ++ "</item>"
       | none => "") ++
      (match request.attributes.page with
       | some page => SERPAGE ++ natDecimal page ++ "</item>"
       | none => "") ++ SEREND) = out := by
    have h' := h
    unfold serialize_request at h'
    exact Except.ok.inj h'
  rw [← hx]
  rcases hl : request.attributes.limit with _ | l <;>
    rcases hpg : request.attributes.page with _ | pg <;>
    simp [serPieces, serFixed, serTail, hl, hpg, ECLOSE,
      List.flatten_append, List.flatten_cons, List.append_assoc]

/-- C6, amended: for every request whose five field strings contain no
`<` character (the serializer performs no escaping, so a field value can
otherwise inject arbitrary items), the output starts with the fixed
envelope head (XML declaration, ops.dtd doctype, OPS_envelope with
header version 0.9, opening of the protocol item), ends with the closing
envelope, contains the protocol, object, action, exp_from and exp_to
items rendered as an element with the key attribute and the value as
element text, and — when limit (resp. page) is None — the limit
(resp. page) item opening occurs nowhere in the output. -/
theorem C6_serialize_items (request : GetDomainsByExpireDateRequest)
    (hp : ∀ c ∈ request.protocol.data, c ≠ '<')
    (ho : ∀ c ∈ request.object.data, c ≠ '<')
    (ha : ∀ c ∈ request.action.data, c ≠ '<')
    (hef : ∀ c ∈ request.attributes.exp_from.data, c ≠ '<')
    (het : ∀ c ∈ request.attributes.exp_to.data, c ≠ '<') :
    ∃ out, serialize_request request = Except.ok out
      ∧ SER1.data <+: out.data
      ∧ SEREND.data <:+ out.data
      ∧ occursIn (KPROT ++ request.protocol ++ ECLOSE) out
      ∧ occursIn (KOBJ ++ request.object ++ ECLOSE) out
      ∧ occursIn (KACT ++ request.action ++ ECLOSE) out
      ∧ occursIn (KEF ++ request.attributes.exp_from ++ ECLOSE) out
      ∧ occursIn (KET ++ request.attributes.exp_to ++ ECLOSE) out
      ∧ (request.attributes.limit = none → ¬ occursIn LIMITPAT out)
      ∧ (request.attributes.page = none → ¬ occursIn PAGEPAT out) := by
  obtain ⟨out, hok⟩ : ∃ out, serialize_request request = Except.ok out := ⟨_, rfl⟩
  have hout : out.data = (serPieces request).flatten := serialize_data_eq request out hok
  have hchain : out.data = SER1.data ++ (request.protocol.data ++ (SER2.data ++
      (request.object.data ++ (SER3.data ++ (request.action.data ++ (SER4.data ++
      (request.attributes.exp_from.data ++ (SER5.data ++ (request.attributes.exp_to.data ++
      (ECLOSE.data ++ (serTail request).flatten)))))))))) := by
    rw [hout]
    simp [serPieces, serFixed, List.flatten_append, List.flatten_cons, List.append_assoc]
  refine ⟨out, hok, ?_, ?_, ?_, ?_, ?_, ?_, ?_, ?_, ?_⟩
  · rw [hchain]
    exact List.prefix_append _ _
  · rw [hout]
    show SEREND.data <:+ (serFixed request ++ serTail request).flatten
    rw [List.flatten_append]
    apply sufStep
    show SEREND.data <:+ (serTail request).flatten
    unfold serTail
    rw [List.flatten_append, List.flatten_append]
    simp only [List.flatten_cons, List.flatten_nil, List.append_nil]
    apply sufStep
    exact List.suffix_refl _
  · show (KPROT ++ request.protocol ++ ECLOSE).data <:+: out.data
    rw [show (KPROT ++ request.protocol ++ ECLOSE).data
        = KPROT.data ++ (request.protocol.data ++ ECLOSE.data) by simp,
      hchain, ser1_split, ser2_split]
    simp only [List.append_assoc]
    apply segStep
    exact seg_three0 _ _ _ _
  · show (KOBJ ++ request.object ++ ECLOSE).data <:+: out.data
    rw [show (KOBJ ++ request.object ++ ECLOSE).data
        = KOBJ.data ++ (request.object.data ++ ECLOSE.data) by simp,
      hchain, ser2_split, ser3_split]
    simp only [List.append_assoc]
    apply segStep; apply segStep; apply segStep; apply segStep
    exact seg_three0 _ _ _ _
  · show (KACT ++ request.action ++ ECLOSE).data <:+: out.data
    rw [show (KACT ++ request.action ++ ECLOSE).data
        = KACT.data ++ (request.action.data ++ ECLOSE.data) by simp,
      hchain, ser3_split, ser4_split]
    simp only [List.append_assoc]
    apply segStep; apply segStep; apply segStep; apply segStep; apply segStep; apply segStep
    exact seg_three0 _ _ _ _
  · show (KEF ++ request.attributes.exp_from ++ ECLOSE).data <:+: out.data
    rw [show (KEF ++ request.attributes.exp_from ++ ECLOSE).data
        = KEF.data ++ (request.attributes.exp_from.data ++ ECLOSE.data) by simp,
      hchain, ser4_split, ser5_split]
    simp only [List.append_assoc]
    apply segStep; apply segStep; apply segStep; apply segStep
    apply segStep; apply segStep; apply segStep; apply segStep
    exact seg_three0 _ _ _ _
  · show (KET ++ request.attributes.exp_to ++ ECLOSE).data <:+: out.data
    rw [show (KET ++ request.attributes.exp_to ++ ECLOSE).data
        = KET.data ++ (request.attributes.exp_to.data ++ ECLOSE.data) by simp,
      hchain, ser5_split]
    simp only [List.append_assoc]
    apply segStep; apply segStep; apply segStep; apply segStep; apply segStep
    apply segStep; apply segStep; apply segStep; apply segStep; apply segStep
    exact seg_three0 _ _ _ _
  · intro hnl
    show ¬ (LIMITPAT.data <:+: out.data)
    rw [hout]
    apply GoodPiece_not_infix LIMITPAT.data (by decide)
    intro L hL
    rcases List.mem_append.mp hL with hL | hL
    · simp only [serFixed, List.mem_cons, List.not_mem_nil, or_false] at hL
      rcases hL with rfl|rfl|rfl|rfl|rfl|rfl|rfl|rfl|rfl|rfl|rfl
      · exact gp_limit_templates.1
      · exact gp_limit_field _ (fun hm => hp '<' hm rfl)
      · exact gp_limit_templates.2.1
      · exact gp_limit_field _ (fun hm => ho '<' hm rfl)
      · exact gp_limit_templates.2.2.1
      · exact gp_limit_field _ (fun hm => ha '<' hm rfl)
      · exact gp_limit_templates.2.2.2.1
      · exact gp_limit_field _ (fun hm => hef '<' hm rfl)
      · exact gp_limit_templates.2.2.2.2.1
      · exact gp_limit_field _ (fun hm => het '<' hm rfl)
      · exact gp_limit_templates.2.2.2.2.2.1
    · unfold serTail at hL
      rw [hnl] at hL
      rcases hpg : request.attributes.page with _ | pg <;> rw [hpg] at hL
      · simp only [List.nil_append, List.mem_singleton] at hL
        rw [hL]
        exact gp_limit_templates.2.2.2.2.2.2.2
      · simp only [List.nil_append, List.cons_append, List.mem_cons,
          List.not_mem_nil, or_false] at hL
        rcases hL with rfl|rfl|rfl|rfl
        · exact gp_limit_templates.2.2.2.2.2.2.1
        · exact gp_limit_field _ (natDigitsAux_no_lt pg)
        · exact gp_limit_templates.2.2.2.2.2.1
        · exact gp_limit_templates.2.2.2.2.2.2.2
  · intro hnp
    show ¬ (PAGEPAT.data <:+: out.data)
    rw [hout]
    apply GoodPiece_not_infix PAGEPAT.data (by decide)
    intro L hL
    rcases List.mem_append.mp hL with hL | hL
    · simp only [serFixed, List.mem_cons, List.not_mem_nil, or_false] at hL
      rcases hL with rfl|rfl|rfl|rfl|rfl|rfl|rfl|rfl|rfl|rfl|rfl
      · exact gp_page_templates.1
      · exact gp_page_field _ (fun hm => hp '<' hm rfl)
      · exact gp_page_templates.2.1
      · exact gp_page_field _ (fun hm => ho '<' hm rfl)
      · exact gp_page_templates.2.2.1
      · exact gp_page_field _ (fun hm => ha '<' hm rfl)
      · exact gp_page_templates.2.2.2.1
      · exact gp_page_field _ (fun hm => hef '<' hm rfl)
      · exact gp_page_templates.2.2.2.2.1
      · exact gp_page_field _ (fun hm => het '<' hm rfl)
      · exact gp_page_templates.2.2.2.2.2.1
    · unfold serTail at hL
      rw [hnp] at hL
      rcases hlim : request.attributes.limit with _ | l <;> rw [hlim] at hL
      · simp only [List.nil_append, List.mem_singleton] at hL
        rw [hL]
        exact gp_page_templates.2.2.2.2.2.2.2
      · simp only [List.nil_append, List.append_nil, List.cons_append, List.mem_cons,
          List.not_mem_nil, or_false] at hL
        rcases hL with rfl|rfl|rfl|rfl
        · exact gp_page_templates.2.2.2.2.2.2.1
        · exact gp_page_field _ (natDigitsAux_no_lt l)
        · exact gp_page_templates.2.2.2.2.2.1
        · exact gp_page_templates.2.2.2.2.2.2.2

/-- Request whose exp_to value smuggles a limit item into the output:
no escaping is performed by the serializer. -/
def c6BadReq : GetDomainsByExpireDateRequest :=
  GetDomainsByExpireDateRequest.mk "XCP" "DOMAIN" "GET_DOMAINS_BY_EXPIREDATE"
    (GetDomainsByExpireDateAttrs.mk "2026-01-01"
      "2026-12-31<item key=\"limit\">40</item>" none none)

/-- C6 as literally stated fails: with limit = None, a field value
containing the text of a limit item makes `<item key="limit">` occur in
the output. -/
theorem C6_limit_injection :
    ∃ out, serialize_request c6BadReq = Except.ok out
      ∧ c6BadReq.attributes.limit = none
      ∧ occursIn LIMITPAT out :=
  ⟨_, rfl, rfl, by decide⟩

/-- The basic request of the spec's serializer example. -/
def c6Req : GetDomainsByExpireDateRequest :=
  GetDomainsByExpireDateRequest.mk "XCP" "DOMAIN" "GET_DOMAINS_BY_EXPIREDATE"
    (GetDomainsByExpireDateAttrs.mk "2026-01-01" "2026-12-31" none none)

theorem C6_serialize_items_witness :
    ∃ out, serialize_request c6Req = Except.ok out
      ∧ SER1.data <+: out.data
      ∧ SEREND.data <:+ out.data
      ∧ occursIn (KPROT ++ c6Req.protocol ++ ECLOSE) out
      ∧ occursIn (KOBJ ++ c6Req.object ++ ECLOSE) out
      ∧ occursIn (KACT ++ c6Req.action ++ ECLOSE) out
      ∧ occursIn (KEF ++ c6Req.attributes.exp_from ++ ECLOSE) out
      ∧ occursIn (KET ++ c6Req.attributes.exp_to ++ ECLOSE) out
      ∧ (c6Req.attributes.limit = none → ¬ occursIn LIMITPAT out)
      ∧ (c6Req.attributes.page = none → ¬ occursIn PAGEPAT out) :=
  C6_serialize_items c6Req (by decide) (by decide) (by decide) (by decide) (by decide)
